import Mathlib

/-!
Verification of the cluster-capacity simulation core (pkg/framework/simulator.go)
and the disk cache (pkg/cache), as a shallow embedding in Lean.

The embedding follows the Go source: `ClusterCapacity` state, `Bind`, `Update`,
`Close`, `nextPod`, `Run` (seeding phase), `Report`, and the `diskCache`
operations.  External collaborators (the scheduling strategy, the uuid
generator, the fake client's create errors, GetReport, sha1) are parameters.
-/

namespace CCSim

/-! ### Decimal printing: `Nat.repr` is injective.

`fmt.Sprintf("%v-%v", name, index)` prints the serial index in decimal; to show
generated pod names are pairwise distinct we need injectivity of the decimal
printer.  We relate core's fuel-based `Nat.toDigitsCore` to a structural
recursion and prove injectivity of the latter. -/

/-- Structurally recursive most-significant-first decimal digit list. -/
def natDigits (n : Nat) : List Char :=
  if h : n < 10 then [Nat.digitChar n]
  else natDigits (n / 10) ++ [Nat.digitChar (n % 10)]
decreasing_by exact Nat.div_lt_self (by omega) (by omega)

theorem natDigits_lt {n : Nat} (h : n < 10) : natDigits n = [Nat.digitChar n] := by
  rw [natDigits]
  simp [h]

theorem natDigits_ge {n : Nat} (h : ¬ n < 10) :
    natDigits n = natDigits (n / 10) ++ [Nat.digitChar (n % 10)] := by
  conv_lhs => rw [natDigits]
  simp [h]

theorem natDigits_ne_nil (n : Nat) : natDigits n ≠ [] := by
  by_cases h : n < 10
  · rw [natDigits_lt h]
    simp
  · rw [natDigits_ge h]
    simp

theorem toDigitsCore_eq_natDigits :
    ∀ (fuel n : Nat) (acc : List Char), n < fuel →
      Nat.toDigitsCore 10 fuel n acc = natDigits n ++ acc := by
  intro fuel
  induction fuel with
  | zero => intro n acc h; omega
  | succ f ih =>
    intro n acc h
    rw [Nat.toDigitsCore]
    by_cases h10 : n / 10 = 0
    · have hn : n < 10 := by omega
      rw [if_pos h10, natDigits_lt hn, Nat.mod_eq_of_lt hn]
      rfl
    · have hge : ¬ n < 10 := by
        intro hc
        exact h10 (Nat.div_eq_of_lt hc)
      rw [if_neg h10, ih (n / 10) _ (by
        have : n / 10 < n := Nat.div_lt_self (by omega) (by omega)
        omega)]
      rw [natDigits_ge hge, List.append_assoc]
      rfl

theorem digitChar_injOn {m n : Nat} (hm : m < 10) (hn : n < 10)
    (h : Nat.digitChar m = Nat.digitChar n) : m = n := by
  interval_cases m <;> interval_cases n <;> revert h <;> decide

theorem natDigits_inj : ∀ m n : Nat, natDigits m = natDigits n → m = n := by
  intro m
  induction m using Nat.strong_induction_on with
  | _ m ih =>
    intro n h
    by_cases hm : m < 10 <;> by_cases hn : n < 10
    · rw [natDigits_lt hm, natDigits_lt hn] at h
      exact digitChar_injOn hm hn (List.cons.inj h).1
    · exfalso
      rw [natDigits_lt hm, natDigits_ge hn] at h
      have hlen := congrArg List.length h
      have hpos := List.length_pos.mpr (natDigits_ne_nil (n / 10))
      rw [List.length_append] at hlen
      simp only [List.length_singleton] at hlen
      omega
    · exfalso
      rw [natDigits_ge hm, natDigits_lt hn] at h
      have hlen := congrArg List.length h
      have hpos := List.length_pos.mpr (natDigits_ne_nil (m / 10))
      rw [List.length_append] at hlen
      simp only [List.length_singleton] at hlen
      omega
    · rw [natDigits_ge hm, natDigits_ge hn] at h
      have hsplit := List.append_inj' h (by rfl)
      have hdiv : m / 10 = n / 10 :=
        ih (m / 10) (Nat.div_lt_self (by omega) (by omega)) (n / 10) hsplit.1
      have hmod : m % 10 = n % 10 := by
        have := (List.cons.inj hsplit.2).1
        exact digitChar_injOn (Nat.mod_lt m (by omega)) (Nat.mod_lt n (by omega)) this
      omega

theorem natRepr_inj {m n : Nat} (h : Nat.repr m = Nat.repr n) : m = n := by
  have hd := congrArg String.data h
  simp only [Nat.repr, Nat.toDigits, List.asString] at hd
  exact natDigits_inj m n (by
    have h1 := toDigitsCore_eq_natDigits (m + 1) m [] (Nat.lt_succ_self m)
    have h2 := toDigitsCore_eq_natDigits (n + 1) n [] (Nat.lt_succ_self n)
    simp only [List.append_nil] at h1 h2
    rw [h1, h2] at hd
    exact hd)

/-! ### Data model (from pkg/framework/simulator.go)

Kubernetes objects are embedded with exactly the fields the simulator reads or
writes; `rest` stands for all remaining template content carried along by
`DeepCopy`.  Channels are embedded as counters/flags: `xCloses` counts how many
times `close(x)` executed (a count above 1 is Go's double-close panic), and
`stopSends` counts sends on the unbuffered `stop` channel. -/

structure PodCondition where
  condType : String
  condStatus : String
  reason : String
  message : String
deriving DecidableEq, Repr

structure Pod where
  name : String
  ns : String
  uid : String
  nodeName : String
  schedulerName : String
  annots : List (String × String)
  phase : String
  rest : String
deriving DecidableEq, Repr

/-- The constant `podProvisioner = "cc.kubernetes.io/provisioned-by"`. -/
def podProvisioner : String := "cc.kubernetes.io/provisioned-by"

/-- Map assignment `annots[k] = v` on the association-list embedding of
`map[string]string`. -/
def setAnn (l : List (String × String)) (k v : String) : List (String × String) :=
  (k, v) :: l.filter (fun q => q.1 ≠ k)

/-- Checks `metav1.HasAnnotation(pod.ObjectMeta, podProvisioner)`. -/
def provisionedByCC (p : Pod) : Bool := (List.lookup podProvisioner p.annots).isSome

/-- The struct `Status`, holding `Pods []*corev1.Pod` and `StopReason string`. -/
structure Status where
  pods : List Pod
  stopReason : String
deriving DecidableEq, Repr

/-- The `ClusterCapacityReview` as far as `Report()` touches it: the
`Spec.Replicas` field plus opaque payload produced by the external
`GetReport`. -/
structure Review where
  replicas : Int
  payload : String
deriving DecidableEq, Repr

/-- Go `int32(n)` for a non-negative `int` value `n`. -/
def toInt32 (n : Nat) : Int := (((n : Int) + 2 ^ 31) % 2 ^ 32) - 2 ^ 31

/-- The `ClusterCapacity` run state.  `cluster` is the fake clientset's pod
store, `seeded` the (ghost) history of instances generated by `nextPod`, and
`pending` records whether an in-flight unscheduled instance exists (the
scheduler invokes `Bind`/observes rejection only for such an instance). -/
structure CC where
  simulatedPod : Pod
  defaultSchedulerName : String
  maxSimulated : Nat
  simulated : Nat
  lastSimulatedPod : Option Pod
  status : Status
  report : Option Review
  schedulerChCloses : Nat
  informerStopChCloses : Nat
  closed : Bool
  stopped : Bool
  stopSends : Nat
  stopChClosed : Bool
  bgCancelled : Bool
  cluster : List Pod
  seeded : List Pod
  pending : Bool
deriving DecidableEq, Repr

/-- Constructor `New(...)`: fresh run state; `initialPods` are the snapshot pods already
copied into the fake clientset by `SyncResources`/`FillWithResources`. -/
def newCC (simulatedPod : Pod) (maxPods : Nat) (schedName : String)
    (initialPods : List Pod) : CC :=
  { simulatedPod := simulatedPod
    defaultSchedulerName := schedName
    maxSimulated := maxPods
    simulated := 0
    lastSimulatedPod := none
    status := { pods := [], stopReason := "" }
    report := none
    schedulerChCloses := 0
    informerStopChCloses := 0
    closed := false
    stopped := false
    stopSends := 0
    stopChClosed := false
    bgCancelled := false
    cluster := initialPods
    seeded := []
    pending := false }

/-- Function `Close()`: first call closes `schedulerCh` and `informerStopCh` and sets
`closed`; later calls return at the `if c.closed` guard. -/
def close (c : CC) : CC :=
  if c.closed then c
  else { c with schedulerChCloses := c.schedulerChCloses + 1
                informerStopChCloses := c.informerStopChCloses + 1
                closed := true }

/-- The instance built by `nextPod` before the clientset `Create` call:
deep copy of the template with node name reset, serial index appended to the
name, a fresh uid from the generator, the scheduler name set, and the
provenance key written into the (possibly nil) map. -/
def mkNextPod (uidSupply : Nat → String) (c : CC) : Pod :=
  let pod := c.simulatedPod
  let pod := { pod with nodeName := ""
                        name := c.simulatedPod.name ++ "-" ++ Nat.repr c.simulated
                        uid := uidSupply c.simulated
                        schedulerName := c.defaultSchedulerName }
  { pod with annots := setAnn pod.annots podProvisioner c.defaultSchedulerName }

/-- Function `nextPod()`: build the instance, bump the serial counter, record it as
last simulated, then `Create` it in the clientset (which may fail, modelled by
`createErr` indexed by the serial). -/
def nextPod (uidSupply : Nat → String) (createErr : Nat → Option String) (c : CC) :
    Option String × CC :=
  let pod := mkNextPod uidSupply c
  let c1 := { c with simulated := c.simulated + 1
                     lastSimulatedPod := some pod
                     seeded := c.seeded ++ [pod] }
  match createErr c.simulated with
  | some e => (some e, c1)
  | none => (none, { c1 with cluster := c1.cluster ++ [pod], pending := true })

/-- The stop reason written on the limit branch of `Bind`. -/
def limitMsg (n : Nat) : String :=
  "LimitReached: Maximum number of pods simulated: " ++ Nat.repr n

inductive BindStatus where
  | ok
  | err (msg : String)
deriving DecidableEq, Repr

/-- Lookup `externalkubeclient.CoreV1().Pods(ns).Get(name, ...)` on the fake store. -/
def clusterGet (c : CC) (ns name : String) : Option Pod :=
  c.cluster.find? (fun q => q.ns = ns && q.name = name)

/-- Function `Bind(...)`: re-fetch the pod, place it on `nodeName` and mark it running,
feed it to the strategy, append it to `status.Pods`, then either stop at the
limit (stop reason, `Close`, send on `stop`) or seed the next instance. -/
def bind (strategyErr : Pod → Option String) (uidSupply : Nat → String)
    (createErr : Nat → Option String) (p : Pod) (nodeName : String) (c : CC) :
    BindStatus × CC :=
  match clusterGet c p.ns p.name with
  | none => (.err "Unable to bind", c)
  | some pod =>
    let updatedPod := { pod with nodeName := nodeName, phase := "Running" }
    match strategyErr updatedPod with
    | some e => (.err ("Unable to recompute new cluster state: " ++ e), c)
    | none =>
      let c1 := { c with status := { c.status with pods := c.status.pods ++ [updatedPod] }
                         pending := false }
      if 0 < c1.maxSimulated ∧ c1.maxSimulated ≤ c1.simulated then
        let c2 := { c1 with status := { c1.status with stopReason := limitMsg c1.maxSimulated } }
        let c3 := close c2
        (.ok, { c3 with stopSends := c3.stopSends + 1 })
      else
        match nextPod uidSupply createErr c1 with
        | (some e, c2) => (.err ("Unable to create next pod to schedule: " ++ e), c2)
        | (none, c2) => (.ok, c2)

/-- The condition shape on which `Update` reacts:
`PodScheduled` / `ConditionFalse` / reason `Unschedulable`. -/
def terminalUnschedulable (cond : PodCondition) : Bool :=
  cond.condType = "PodScheduled" && cond.condStatus = "False" &&
    cond.reason = "Unschedulable"

/-- Function `Update(pod, podCondition, schedulerName)`: on a terminal unschedulable
condition of a provenance-marked pod it records the stop reason, calls
`Close`, sets `stopped` and sends on `stop`; otherwise it does nothing.
Always returns `nil`.  Note the source sets `stopped` but never reads it. -/
def update (p : Pod) (cond : PodCondition) (c : CC) : Option String × CC :=
  if terminalUnschedulable cond && provisionedByCC p then
    let c1 := { c with status := { c.status with stopReason := cond.reason ++ ": " ++ cond.message } }
    let c2 := close c1
    (none, { c2 with stopped := true, stopSends := c2.stopSends + 1 })
  else (none, c)

/-- Function `Report()`: memoized construction from the template pod singleton list and
the final status, with `Spec.Replicas` overwritten by `int32(maxSimulated)`. -/
def reportStep (getReport : List Pod → Status → Review) (c : CC) : Review × CC :=
  match c.report with
  | some r => (r, c)
  | none =>
    let pods : List Pod := [c.simulatedPod]
    let r0 := getReport pods c.status
    let r := { r0 with replicas := toInt32 c.maxSimulated }
    (r, { c with report := some r })

/-- The seeding phase of `Run()`: create instance #0; on failure cancel the
scheduler context, `Close()`, close the `stop` channel and return the error. -/
def start (uidSupply : Nat → String) (createErr : Nat → Option String) (c : CC) :
    Option String × CC :=
  match nextPod uidSupply createErr c with
  | (some e, c1) =>
    let c2 := { c1 with bgCancelled := true }
    let c3 := close c2
    (some ("Unable to create next pod to schedule: " ++ e), { c3 with stopChClosed := true })
  | (none, c1) => (none, c1)

/-- Events delivered by the scheduling engine to the run: a successful bind of
the in-flight instance, an unschedulable verdict observed for it, or a stray
informer update (`Update` may fire repeatedly before the scheduler closes). -/
inductive Event where
  | accept (nodeName : String)
  | reject (reason message : String)
  | stray (p : Pod) (cond : PodCondition)
deriving DecidableEq, Repr

/-- One engine event applied to the run state.  `accept` and `reject` act on
the in-flight instance, which exists only when `pending`. -/
def step (strategyErr : Pod → Option String) (uidSupply : Nat → String)
    (createErr : Nat → Option String) (c : CC) : Event → CC
  | .accept nodeName =>
    match c.lastSimulatedPod, c.pending with
    | some p, true => (bind strategyErr uidSupply createErr p nodeName c).2
    | _, _ => c
  | .reject r m =>
    match c.lastSimulatedPod, c.pending with
    | some p, true =>
      (update p { condType := "PodScheduled", condStatus := "False", reason := r, message := m } c).2
    | _, _ => c
  | .stray p cond => (update p cond c).2

/-- A run trace: a sequence of engine events applied in order. -/
def steps (strategyErr : Pod → Option String) (uidSupply : Nat → String)
    (createErr : Nat → Option String) (es : List Event) (c : CC) : CC :=
  es.foldl (step strategyErr uidSupply createErr) c

/-! ### Disk cache (pkg/cache)

The file system is an association list from file name to contents; `hashHex`
stands for `hex.EncodeToString(sha1(key))`. -/

structure DiskCache where
  directory : String
deriving DecidableEq, Repr

/-- Function `buildFileName`: `path.Join(directory, hex(sha1(key)))`. -/
def buildFileName (hashHex : String → String) (d : DiskCache) (key : String) : String :=
  d.directory ++ "/" ++ hashHex key

/-- An `os.Create` followed by `Write`: truncate/create the file with the data. -/
def fsWrite (fs : List (String × String)) (fname data : String) :
    List (String × String) :=
  (fname, data) :: fs.filter (fun q => q.1 ≠ fname)

/-- An `os.Open` followed by `ReadAll`. -/
def fsRead (fs : List (String × String)) (fname : String) : Option String :=
  List.lookup fname fs

/-- Method `Set` of `diskCache` (success path of file creation): write the
data under the hashed file name and return `nil`. -/
def cacheSet (hashHex : String → String) (d : DiskCache) (fs : List (String × String))
    (key data : String) : Option String × List (String × String) :=
  (none, fsWrite fs (buildFileName hashHex d key) data)

/-- Method `Get` of `diskCache`: read the file under the hashed file name. -/
def cacheGet (hashHex : String → String) (d : DiskCache) (fs : List (String × String))
    (key : String) : Option String :=
  fsRead fs (buildFileName hashHex d key)

/-- Method `Clean` of `diskCache`: the body is exactly `return nil`. -/
def cacheClean (d : DiskCache) (fs : List (String × String)) (key : String) :
    Option String × List (String × String) :=
  (none, fs)

/-! ### Projection helpers -/

theorem close_status (c : CC) : (close c).status = c.status := by
  unfold close
  split <;> rfl

theorem close_simulated (c : CC) : (close c).simulated = c.simulated := by
  unfold close
  split <;> rfl

theorem close_pending (c : CC) : (close c).pending = c.pending := by
  unfold close
  split <;> rfl

theorem close_cluster (c : CC) : (close c).cluster = c.cluster := by
  unfold close
  split <;> rfl

theorem close_seeded (c : CC) : (close c).seeded = c.seeded := by
  unfold close
  split <;> rfl

theorem close_lastSimulatedPod (c : CC) : (close c).lastSimulatedPod = c.lastSimulatedPod := by
  unfold close
  split <;> rfl

theorem close_maxSimulated (c : CC) : (close c).maxSimulated = c.maxSimulated := by
  unfold close
  split <;> rfl

theorem close_simulatedPod (c : CC) : (close c).simulatedPod = c.simulatedPod := by
  unfold close
  split <;> rfl

theorem close_defaultSchedulerName (c : CC) :
    (close c).defaultSchedulerName = c.defaultSchedulerName := by
  unfold close
  split <;> rfl

theorem close_stopSends (c : CC) : (close c).stopSends = c.stopSends := by
  unfold close
  split <;> rfl

theorem close_closed_true (c : CC) : (close c).closed = true := by
  unfold close
  split
  · assumption
  · rfl

theorem close_of_closed {c : CC} (h : c.closed = true) : close c = c := by
  unfold close
  simp [h]

theorem close_counts {c : CC} (h : c.closed = false) :
    (close c).schedulerChCloses = c.schedulerChCloses + 1 ∧
    (close c).informerStopChCloses = c.informerStopChCloses + 1 := by
  unfold close
  simp [h]

/-! ### State-transition characterizations -/

theorem nextPod_ok_eq {uid : Nat → String} {cErr : Nat → Option String} {c : CC}
    (h : cErr c.simulated = none) :
    nextPod uid cErr c =
      (none, { c with simulated := c.simulated + 1
                      lastSimulatedPod := some (mkNextPod uid c)
                      seeded := c.seeded ++ [mkNextPod uid c]
                      cluster := c.cluster ++ [mkNextPod uid c]
                      pending := true }) := by
  unfold nextPod
  rw [h]

theorem nextPod_err_eq {uid : Nat → String} {cErr : Nat → Option String} {c : CC}
    {e : String} (h : cErr c.simulated = some e) :
    nextPod uid cErr c =
      (some e, { c with simulated := c.simulated + 1
                        lastSimulatedPod := some (mkNextPod uid c)
                        seeded := c.seeded ++ [mkNextPod uid c] }) := by
  unfold nextPod
  rw [h]

theorem bind_stop_eq {sErr : Pod → Option String} {uid : Nat → String}
    {cErr : Nat → Option String} {p : Pod} {nodeName : String} {c : CC} {pod : Pod}
    (hget : clusterGet c p.ns p.name = some pod)
    (hstrat : sErr { pod with nodeName := nodeName, phase := "Running" } = none)
    (hmax : 0 < c.maxSimulated) (hsim : c.maxSimulated ≤ c.simulated) :
    bind sErr uid cErr p nodeName c =
      (.ok, { close { c with
                status := { pods := c.status.pods ++
                              [{ pod with nodeName := nodeName, phase := "Running" }]
                            stopReason := limitMsg c.maxSimulated }
                pending := false } with
              stopSends := c.stopSends + 1 }) := by
  unfold bind
  rw [hget]
  dsimp only
  rw [hstrat]
  dsimp only
  rw [if_pos ⟨hmax, hsim⟩]
  rw [close_stopSends]

theorem bind_cont_eq {sErr : Pod → Option String} {uid : Nat → String}
    {cErr : Nat → Option String} {p : Pod} {nodeName : String} {c : CC} {pod : Pod}
    (hget : clusterGet c p.ns p.name = some pod)
    (hstrat : sErr { pod with nodeName := nodeName, phase := "Running" } = none)
    (hnot : ¬ (0 < c.maxSimulated ∧ c.maxSimulated ≤ c.simulated)) :
    (bind sErr uid cErr p nodeName c).2 =
      (nextPod uid cErr { c with
        status := { c.status with pods := c.status.pods ++
                      [{ pod with nodeName := nodeName, phase := "Running" }] }
        pending := false }).2 := by
  unfold bind
  rw [hget]
  dsimp only
  rw [hstrat]
  dsimp only
  rw [if_neg hnot]
  rcases hnp : nextPod uid cErr { c with
      status := { c.status with pods := c.status.pods ++
                    [{ pod with nodeName := nodeName, phase := "Running" }] }
      pending := false } with ⟨o, c2⟩
  cases o <;> rfl

theorem step_accept_eq {sErr : Pod → Option String} {uid : Nat → String}
    {cErr : Nat → Option String} {c : CC} {p : Pod} {node : String}
    (hl : c.lastSimulatedPod = some p) (hp : c.pending = true) :
    step sErr uid cErr c (.accept node) = (bind sErr uid cErr p node c).2 := by
  unfold step
  rw [hl, hp]

theorem step_reject_eq {sErr : Pod → Option String} {uid : Nat → String}
    {cErr : Nat → Option String} {c : CC} {p : Pod} {r m : String}
    (hl : c.lastSimulatedPod = some p) (hp : c.pending = true) :
    step sErr uid cErr c (.reject r m) =
      (update p { condType := "PodScheduled", condStatus := "False",
                  reason := r, message := m } c).2 := by
  unfold step
  rw [hl, hp]

/-! ### Run invariant -/

theorem findPod_append_self (l : List Pod) (g : Pod) :
    (List.find? (fun q => q.ns = g.ns && q.name = g.name) (l ++ [g])).isSome = true := by
  simp only [List.find?_isSome]
  exact ⟨g, by simp, by simp⟩

theorem clusterGet_eq_of_cluster {c d : CC} (h : d.cluster = c.cluster)
    (ns name : String) : clusterGet d ns name = clusterGet c ns name := by
  unfold clusterGet
  rw [h]

/-- Invariant of every reachable run state: the configured limit and the
template never change, the number of accepted placements (plus the in-flight
instance, if any) never exceeds the number of seeded instances, the number of
seeded instances never exceeds a positive limit, the in-flight instance can be
re-fetched from the fake clientset, and the seeded instances carry exactly the
serially indexed names. -/
structure Inv (N : Nat) (tpl : Pod) (c : CC) : Prop where
  max_eq : c.maxSimulated = N
  tpl_eq : c.simulatedPod = tpl
  count : c.status.pods.length + (if c.pending = true then 1 else 0) ≤ c.simulated
  sim_le : 0 < N → c.simulated ≤ N
  findable : c.pending = true →
    ∃ p, c.lastSimulatedPod = some p ∧ (clusterGet c p.ns p.name).isSome = true
  seeded_names : c.seeded.map Pod.name =
    (List.range c.simulated).map (fun i => tpl.name ++ "-" ++ Nat.repr i)

theorem newCC_inv (tpl : Pod) (N : Nat) (sched : String) (init : List Pod) :
    Inv N tpl (newCC tpl N sched init) := by
  refine ⟨rfl, rfl, by simp [newCC], by intro h; simp [newCC], ?_, by simp [newCC]⟩
  intro h
  simp [newCC] at h

theorem nextPod_inv {N : Nat} {tpl : Pod} {c : CC} (uid : Nat → String)
    (cErr : Nat → Option String) (hI : Inv N tpl c)
    (hsim : 0 < N → c.simulated < N) (hpend : c.pending = false) :
    Inv N tpl (nextPod uid cErr c).2 := by
  have hcnt := hI.count
  rw [hpend] at hcnt
  simp only [Bool.false_eq_true, if_false] at hcnt
  cases hc : cErr c.simulated with
  | none =>
    rw [nextPod_ok_eq hc]
    dsimp only
    refine ⟨hI.max_eq, hI.tpl_eq, ?_, ?_, ?_, ?_⟩
    · show c.status.pods.length + (if true = true then 1 else 0) ≤ c.simulated + 1
      rw [if_pos rfl]
      omega
    · intro hN
      show c.simulated + 1 ≤ N
      have := hsim hN
      omega
    · intro _
      refine ⟨mkNextPod uid c, rfl, ?_⟩
      show (List.find? (fun q => q.ns = (mkNextPod uid c).ns &&
        q.name = (mkNextPod uid c).name) (c.cluster ++ [mkNextPod uid c])).isSome = true
      exact findPod_append_self _ _
    · show (c.seeded ++ [mkNextPod uid c]).map Pod.name =
        (List.range (c.simulated + 1)).map (fun i => tpl.name ++ "-" ++ Nat.repr i)
      rw [List.map_append, hI.seeded_names, List.range_succ, List.map_append]
      simp [mkNextPod, hI.tpl_eq]
  | some e =>
    rw [nextPod_err_eq hc]
    dsimp only
    refine ⟨hI.max_eq, hI.tpl_eq, ?_, ?_, ?_, ?_⟩
    · show c.status.pods.length + (if c.pending = true then 1 else 0) ≤ c.simulated + 1
      rw [hpend]
      simp only [Bool.false_eq_true, if_false]
      omega
    · intro hN
      show c.simulated + 1 ≤ N
      have := hsim hN
      omega
    · intro h
      have hp : c.pending = true := h
      rw [hpend] at hp
      exact absurd hp (by simp)
    · show (c.seeded ++ [mkNextPod uid c]).map Pod.name =
        (List.range (c.simulated + 1)).map (fun i => tpl.name ++ "-" ++ Nat.repr i)
      rw [List.map_append, hI.seeded_names, List.range_succ, List.map_append]
      simp [mkNextPod, hI.tpl_eq]

theorem inv_of_fields {N : Nat} {tpl : Pod} {c d : CC} (hI : Inv N tpl c)
    (h1 : d.maxSimulated = c.maxSimulated) (h2 : d.simulatedPod = c.simulatedPod)
    (h3 : d.status.pods = c.status.pods) (h4 : d.pending = c.pending)
    (h5 : d.simulated = c.simulated) (h6 : d.lastSimulatedPod = c.lastSimulatedPod)
    (h7 : d.cluster = c.cluster) (h8 : d.seeded = c.seeded) : Inv N tpl d := by
  refine ⟨h1.trans hI.max_eq, h2.trans hI.tpl_eq, ?_, ?_, ?_, ?_⟩
  · rw [h3, h4, h5]
    exact hI.count
  · rw [h5]
    exact hI.sim_le
  · rw [h4, h6]
    intro h
    obtain ⟨p, hp, hf⟩ := hI.findable h
    exact ⟨p, hp, by rw [clusterGet_eq_of_cluster h7]; exact hf⟩
  · rw [h8, h5]
    exact hI.seeded_names

theorem close_inv {N : Nat} {tpl : Pod} {c : CC} (hI : Inv N tpl c) :
    Inv N tpl (close c) :=
  inv_of_fields hI (close_maxSimulated c) (close_simulatedPod c)
    (by rw [close_status]) (close_pending c) (close_simulated c)
    (close_lastSimulatedPod c) (close_cluster c) (close_seeded c)

theorem update_inv {N : Nat} {tpl : Pod} {c : CC} (p : Pod) (cond : PodCondition)
    (hI : Inv N tpl c) : Inv N tpl (update p cond c).2 := by
  unfold update
  cases hg : (terminalUnschedulable cond && provisionedByCC p) with
  | false =>
    rw [if_neg (by simp)]
    exact hI
  | true =>
    rw [if_pos rfl]
    dsimp only
    refine inv_of_fields (close_inv (inv_of_fields hI ?_ ?_ ?_ ?_ ?_ ?_ ?_ ?_))
      rfl rfl rfl rfl rfl rfl rfl rfl <;> rfl

theorem bind_inv {N : Nat} {tpl : Pod} (sErr : Pod → Option String)
    (uid : Nat → String) (cErr : Nat → Option String) (p : Pod) (nodeName : String)
    {c : CC} (hI : Inv N tpl c) (hpend : c.pending = true) :
    Inv N tpl (bind sErr uid cErr p nodeName c).2 := by
  cases hget : clusterGet c p.ns p.name with
  | none =>
    rw [show bind sErr uid cErr p nodeName c = (.err "Unable to bind", c) from by
      unfold bind; rw [hget]]
    exact hI
  | some pod =>
    cases hstrat : sErr { pod with nodeName := nodeName, phase := "Running" } with
    | some e =>
      rw [show bind sErr uid cErr p nodeName c =
          (.err ("Unable to recompute new cluster state: " ++ e), c) from by
        unfold bind; rw [hget]; dsimp only; rw [hstrat]]
      exact hI
    | none =>
      have hcount := hI.count
      rw [hpend, if_pos rfl] at hcount
      by_cases hlim : 0 < c.maxSimulated ∧ c.maxSimulated ≤ c.simulated
      · rw [bind_stop_eq hget hstrat hlim.1 hlim.2]
        have hbase : Inv N tpl { c with
            status := { pods := c.status.pods ++
                          [{ pod with nodeName := nodeName, phase := "Running" }]
                        stopReason := limitMsg c.maxSimulated }
            pending := false } := by
          refine ⟨hI.max_eq, hI.tpl_eq, ?_, hI.sim_le, ?_, hI.seeded_names⟩
          · simp [List.length_append]
            omega
          · intro h
            simp at h
        exact inv_of_fields (close_inv hbase) rfl rfl rfl rfl rfl rfl rfl rfl
      · rw [bind_cont_eq hget hstrat hlim]
        apply nextPod_inv uid cErr
        · refine ⟨hI.max_eq, hI.tpl_eq, ?_, hI.sim_le, ?_, hI.seeded_names⟩
          · simp [List.length_append]
            omega
          · intro h
            simp at h
        · intro hN
          show c.simulated < N
          have hmax := hI.max_eq
          rcases Nat.lt_or_ge c.simulated c.maxSimulated with hlt | hge
          · omega
          · exact absurd ⟨by omega, hge⟩ hlim
        · rfl

theorem step_inv {N : Nat} {tpl : Pod} (sErr : Pod → Option String)
    (uid : Nat → String) (cErr : Nat → Option String) {c : CC} (e : Event)
    (hI : Inv N tpl c) : Inv N tpl (step sErr uid cErr c e) := by
  cases e with
  | accept node =>
    cases hl : c.lastSimulatedPod with
    | none =>
      unfold step
      rw [hl]
      cases c.pending <;> exact hI
    | some q =>
      cases hp : c.pending with
      | false =>
        unfold step
        rw [hl, hp]
        exact hI
      | true =>
        rw [step_accept_eq hl hp]
        exact bind_inv sErr uid cErr q node hI hp
  | reject r m =>
    cases hl : c.lastSimulatedPod with
    | none =>
      unfold step
      rw [hl]
      cases c.pending <;> exact hI
    | some q =>
      cases hp : c.pending with
      | false =>
        unfold step
        rw [hl, hp]
        exact hI
      | true =>
        rw [step_reject_eq hl hp]
        exact update_inv q _ hI
  | stray q cond =>
    unfold step
    exact update_inv q cond hI

theorem steps_inv {N : Nat} {tpl : Pod} (sErr : Pod → Option String)
    (uid : Nat → String) (cErr : Nat → Option String) :
    ∀ (es : List Event) (c : CC), Inv N tpl c →
      Inv N tpl (steps sErr uid cErr es c) := by
  intro es
  induction es with
  | nil => intro c h; exact h
  | cons e t ih =>
    intro c h
    exact ih _ (step_inv sErr uid cErr e h)

theorem start_inv {N : Nat} {tpl : Pod} (uid : Nat → String)
    (cErr : Nat → Option String) (sched : String) (init : List Pod) :
    Inv N tpl (start uid cErr (newCC tpl N sched init)).2 := by
  have h0 := newCC_inv tpl N sched init
  have hseed : Inv N tpl (nextPod uid cErr (newCC tpl N sched init)).2 :=
    nextPod_inv uid cErr h0 (by intro h; simpa [newCC] using h) rfl
  unfold start
  cases hc : cErr (newCC tpl N sched init).simulated with
  | none =>
    rw [nextPod_ok_eq hc]
    rw [nextPod_ok_eq hc] at hseed
    exact hseed
  | some e =>
    rw [nextPod_err_eq hc]
    rw [nextPod_err_eq hc] at hseed
    dsimp only
    refine inv_of_fields (close_inv (inv_of_fields hseed ?_ ?_ ?_ ?_ ?_ ?_ ?_ ?_))
      rfl rfl rfl rfl rfl rfl rfl rfl <;> rfl

/-! ### The all-accept run -/

/-- Shape of the run state along an all-accept trace: `j` placements recorded,
the next instance in flight, no termination signal yet. -/
structure Mid (N : Nat) (j : Nat) (c : CC) : Prop where
  max_eq : c.maxSimulated = N
  len_eq : c.status.pods.length = j
  sim_eq : c.simulated = j + 1
  pend : c.pending = true
  sends : c.stopSends = 0
  findable : ∃ p, c.lastSimulatedPod = some p ∧ (clusterGet c p.ns p.name).isSome = true

theorem accept_stop {N j : Nat} {c : CC} (node : String) (uid : Nat → String)
    (hM : Mid N j c) (hstop : j + 1 = N) (hN : 0 < N) :
    (step (fun _ => none) uid (fun _ => none) c (.accept node)).status.pods.length = N ∧
    (step (fun _ => none) uid (fun _ => none) c (.accept node)).simulated = N ∧
    (step (fun _ => none) uid (fun _ => none) c (.accept node)).stopSends = 1 ∧
    (step (fun _ => none) uid (fun _ => none) c (.accept node)).pending = false ∧
    (step (fun _ => none) uid (fun _ => none) c (.accept node)).status.stopReason =
      limitMsg N ∧
    (step (fun _ => none) uid (fun _ => none) c (.accept node)).closed = true := by
  obtain ⟨p, hl, hf⟩ := hM.findable
  obtain ⟨pod, hget⟩ := Option.isSome_iff_exists.mp hf
  rw [step_accept_eq hl hM.pend]
  rw [bind_stop_eq hget rfl (by have := hM.max_eq; omega)
    (by have := hM.max_eq; have := hM.sim_eq; omega)]
  have hlen := hM.len_eq
  have hsim := hM.sim_eq
  have hmax := hM.max_eq
  have hsends := hM.sends
  refine ⟨?_, ?_, ?_, ?_, ?_, ?_⟩
  · show (close _).status.pods.length = N
    rw [close_status]
    show (c.status.pods ++ [_]).length = N
    rw [List.length_append, List.length_singleton]
    omega
  · show (close _).simulated = N
    rw [close_simulated]
    show c.simulated = N
    omega
  · show c.stopSends + 1 = 1
    omega
  · show (close _).pending = false
    rw [close_pending]
  · show (close _).status.stopReason = limitMsg N
    rw [close_status]
    show limitMsg c.maxSimulated = limitMsg N
    rw [hmax]
  · show (close _).closed = true
    exact close_closed_true _

theorem accept_cont {N j : Nat} {c : CC} (node : String) (uid : Nat → String)
    (hM : Mid N j c) (hlt : j + 1 < N) :
    Mid N (j + 1) (step (fun _ => none) uid (fun _ => none) c (.accept node)) := by
  obtain ⟨p, hl, hf⟩ := hM.findable
  obtain ⟨pod, hget⟩ := Option.isSome_iff_exists.mp hf
  rw [step_accept_eq hl hM.pend]
  rw [bind_cont_eq hget rfl
    (by have := hM.max_eq; have := hM.sim_eq; omega)]
  rw [nextPod_ok_eq rfl]
  dsimp only
  have hlen := hM.len_eq
  have hsim := hM.sim_eq
  refine ⟨hM.max_eq, ?_, ?_, rfl, hM.sends, ?_⟩
  · show (c.status.pods ++ [_]).length = j + 1
    rw [List.length_append, List.length_singleton]
    omega
  · show c.simulated + 1 = j + 1 + 1
    omega
  · refine ⟨_, rfl, ?_⟩
    show (List.find? _ (c.cluster ++ [_])).isSome = true
    exact findPod_append_self _ _

theorem acceptRun {N : Nat} (node : String) (uid : Nat → String) (hN : 0 < N) :
    ∀ (k j : Nat) (c : CC), j + k = N → 1 ≤ k → Mid N j c →
      (steps (fun _ => none) uid (fun _ => none)
          (List.replicate k (Event.accept node)) c).status.pods.length = N ∧
      (steps (fun _ => none) uid (fun _ => none)
          (List.replicate k (Event.accept node)) c).simulated = N ∧
      (steps (fun _ => none) uid (fun _ => none)
          (List.replicate k (Event.accept node)) c).stopSends = 1 ∧
      (steps (fun _ => none) uid (fun _ => none)
          (List.replicate k (Event.accept node)) c).pending = false ∧
      (steps (fun _ => none) uid (fun _ => none)
          (List.replicate k (Event.accept node)) c).status.stopReason = limitMsg N ∧
      (steps (fun _ => none) uid (fun _ => none)
          (List.replicate k (Event.accept node)) c).closed = true := by
  intro k
  induction k with
  | zero =>
    intro j c hjk hk
    exact absurd hk (by omega)
  | succ m ih =>
    intro j c hjk hk hM
    by_cases hstop : j + 1 = N
    · have hm0 : m = 0 := by omega
      subst hm0
      exact accept_stop node uid hM hstop hN
    · have hM2 := accept_cont node uid hM (by have := hM.max_eq; omega)
      exact ih (j + 1) _ (by omega) (by omega) hM2

theorem start_mid (tpl : Pod) (N : Nat) (sched : String) (init : List Pod)
    (uid : Nat → String) :
    Mid N 0 ((start uid (fun _ => none) (newCC tpl N sched init)).2) := by
  unfold start
  rw [nextPod_ok_eq rfl]
  dsimp only
  refine ⟨rfl, rfl, rfl, rfl, rfl, ?_⟩
  refine ⟨mkNextPod uid (newCC tpl N sched init), rfl, ?_⟩
  show (List.find? _ (init ++ [_])).isSome = true
  exact findPod_append_self _ _

theorem mkName_inj (s : String) :
    Function.Injective (fun i => s ++ "-" ++ Nat.repr i) := by
  intro i j h
  apply natRepr_inj
  apply String.ext
  have hd := congrArg String.data h
  simp only [String.data_append] at hd
  exact List.append_cancel_left hd

/-! ### Concrete fixtures for witnesses and counterexamples -/

/-- A template pod as supplied to `New`. -/
def exPod : Pod :=
  { name := "small-pod", ns := "default", uid := "template-uid", nodeName := ""
    schedulerName := "", annots := [], phase := "Pending", rest := "spec" }

/-- A deterministic stand-in for the uuid generator. -/
def exUid : Nat → String := fun i => "uid-" ++ Nat.repr i

/-- An unbounded run (`Limit = 0`) right after `Run()` seeded instance #0. -/
def exStarted : CC :=
  (start exUid (fun _ => none) (newCC exPod 0 "default-scheduler" [])).2

/-- A run with `Limit = 1` right after `Run()` seeded instance #0. -/
def exN1Started : CC :=
  (start exUid (fun _ => none) (newCC exPod 1 "default-scheduler" [])).2

/-- A provenance-marked pod, as generated by `nextPod`. -/
def exProvPod : Pod :=
  { name := "small-pod-0", ns := "default", uid := "uid-0", nodeName := ""
    schedulerName := "default-scheduler"
    annots := [(podProvisioner, "default-scheduler")]
    phase := "Pending", rest := "spec" }

/-- The terminal unschedulable condition with the message of Scenario B. -/
def exUnschedCond : PodCondition :=
  { condType := "PodScheduled", condStatus := "False", reason := "Unschedulable"
    message := "Insufficient cpu" }

/-! ### Claims -/

/-- C10: for every key, the disk cache's `Clean(key)` returns nil and performs
no action; in particular an entry written by `Set` is still readable after
`Clean`. -/
theorem clean_is_noop (hashHex : String → String) (d : DiskCache)
    (fs : List (String × String)) (key data : String) :
    cacheClean d fs key = (none, fs) ∧
    cacheGet hashHex d (cacheClean d (cacheSet hashHex d fs key data).2 key).2 key
      = some data := by
  refine ⟨rfl, ?_⟩
  simp [cacheGet, cacheClean, cacheSet, fsRead, fsWrite]

/-- C7: `Close()` is idempotent: the first call closes the scheduler channel
and the informer stop channel exactly once each, and any number of further
calls leaves the state exactly as after the first call, so no channel is ever
closed twice. -/
theorem close_idempotent (c : CC) (h0 : c.closed = false)
    (h1 : c.schedulerChCloses = 0) (h2 : c.informerStopChCloses = 0) :
    (close c).schedulerChCloses = 1 ∧
    (close c).informerStopChCloses = 1 ∧
    (close c).closed = true ∧
    ∀ n : Nat, close^[n] (close c) = close c := by
  obtain ⟨hc1, hc2⟩ := close_counts h0
  refine ⟨by omega, by omega, close_closed_true c, ?_⟩
  intro n
  induction n with
  | zero => rfl
  | succ m ih =>
    rw [Function.iterate_succ_apply, close_of_closed (close_closed_true c), ih]

theorem close_idempotent_witness :
    (close (newCC exPod 0 "default-scheduler" [])).schedulerChCloses = 1 ∧
    close^[5] (close (newCC exPod 0 "default-scheduler" [])) =
      close (newCC exPod 0 "default-scheduler" []) := by
  have h := close_idempotent (newCC exPod 0 "default-scheduler" []) rfl rfl rfl
  exact ⟨h.1, h.2.2.2 5⟩

theorem toInt32_of_lt {n : Nat} (h : n < 2 ^ 31) : toInt32 n = n := by
  unfold toInt32
  omega

/-- C9: `Report()` is memoized and idempotent: the first call builds the
review from the singleton template pod list and the final status, overriding
its replica count with the configured limit; a second call returns the same
review and leaves the state unchanged. -/
theorem report_memoized (g : List Pod → Status → Review) (c : CC)
    (h : c.report = none) (hlt : c.maxSimulated < 2 ^ 31) :
    (reportStep g c).1 =
      { g [c.simulatedPod] c.status with replicas := (c.maxSimulated : Int) } ∧
    reportStep g (reportStep g c).2 = reportStep g c := by
  unfold reportStep
  rw [h]
  simp [toInt32_of_lt hlt]

theorem report_memoized_witness :
    (reportStep (fun _ _ => { replicas := 7, payload := "body" })
        (newCC exPod 3 "default-scheduler" [])).1.replicas = 3 := by
  have h := report_memoized (fun _ _ => { replicas := 7, payload := "body" })
    (newCC exPod 3 "default-scheduler" []) rfl (by decide)
  rw [h.1]
  rfl

/-- C5: if the strategy (Cluster State Projector) rejects an accepted
placement, `Bind` reports an error status to the engine and changes nothing:
the state (placement sequence, serial counter, stop reason, channels) is
returned untouched and no next instance is seeded. -/
theorem bind_projection_error (sErr : Pod → Option String) (uid : Nat → String)
    (cErr : Nat → Option String) (p : Pod) (nodeName : String) (c : CC)
    (pod : Pod) (e : String)
    (hget : clusterGet c p.ns p.name = some pod)
    (hstrat : sErr { pod with nodeName := nodeName, phase := "Running" } = some e) :
    bind sErr uid cErr p nodeName c =
      (.err ("Unable to recompute new cluster state: " ++ e), c) := by
  unfold bind
  rw [hget]
  simp [hstrat]

theorem bind_projection_error_witness :
    bind (fun _ => some "capacity recompute failed") exUid (fun _ => none)
        exProvPod "node-a" exStarted =
      (.err ("Unable to recompute new cluster state: " ++ "capacity recompute failed"),
        exStarted) :=
  bind_projection_error (fun _ => some "capacity recompute failed") exUid
    (fun _ => none) exProvPod "node-a" exStarted
    { exProvPod with annots := [(podProvisioner, "default-scheduler")] }
    "capacity recompute failed" (by decide) rfl

/-- C6: if creating workload instance #0 fails, the seeding phase of `Run()`
fails fast: it cancels the scheduler context, runs `Close()` (closing both
channels once), closes the stop channel, returns the error, and the placement
sequence stays empty. -/
theorem start_seed_error (uid : Nat → String) (cErr : Nat → Option String)
    (tpl : Pod) (maxPods : Nat) (sched : String) (init : List Pod) (e : String)
    (h : cErr 0 = some e) :
    (start uid cErr (newCC tpl maxPods sched init)).1 =
      some ("Unable to create next pod to schedule: " ++ e) ∧
    (start uid cErr (newCC tpl maxPods sched init)).2.status.pods = [] ∧
    (start uid cErr (newCC tpl maxPods sched init)).2.bgCancelled = true ∧
    (start uid cErr (newCC tpl maxPods sched init)).2.schedulerChCloses = 1 ∧
    (start uid cErr (newCC tpl maxPods sched init)).2.informerStopChCloses = 1 ∧
    (start uid cErr (newCC tpl maxPods sched init)).2.closed = true ∧
    (start uid cErr (newCC tpl maxPods sched init)).2.stopChClosed = true := by
  unfold start nextPod
  simp [newCC, h, close]

theorem start_seed_error_witness :
    (start exUid (fun _ => some "connection refused")
        (newCC exPod 0 "default-scheduler" [])).1 =
      some ("Unable to create next pod to schedule: " ++ "connection refused") ∧
    (start exUid (fun _ => some "connection refused")
        (newCC exPod 0 "default-scheduler" [])).2.status.pods = [] :=
  have h := start_seed_error exUid (fun _ => some "connection refused")
    exPod 0 "default-scheduler" [] "connection refused" rfl
  ⟨h.1, h.2.1⟩

/-- C3: a single `Update` call terminates the run with stop reason
`reason ++ ": " ++ message` exactly when the condition is
PodScheduled/False/Unschedulable and the pod carries the
`cc.kubernetes.io/provisioned-by` key; in every other case the state is
returned unchanged; the returned error is nil in all cases. -/
theorem update_terminal_iff (p : Pod) (cond : PodCondition) (c : CC) :
    (update p cond c).1 = none ∧
    ((cond.condType = "PodScheduled" ∧ cond.condStatus = "False" ∧
      cond.reason = "Unschedulable" ∧
      (List.lookup "cc.kubernetes.io/provisioned-by" p.annots).isSome = true) →
        ((update p cond c).2.status.stopReason = cond.reason ++ ": " ++ cond.message ∧
         (update p cond c).2.stopSends = c.stopSends + 1 ∧
         (update p cond c).2.closed = true ∧
         (update p cond c).2.status.pods = c.status.pods ∧
         (update p cond c).2.simulated = c.simulated)) ∧
    (¬ (cond.condType = "PodScheduled" ∧ cond.condStatus = "False" ∧
        cond.reason = "Unschedulable" ∧
        (List.lookup "cc.kubernetes.io/provisioned-by" p.annots).isSome = true) →
        (update p cond c).2 = c) := by
  have hiff : (terminalUnschedulable cond && provisionedByCC p) = true ↔
      (cond.condType = "PodScheduled" ∧ cond.condStatus = "False" ∧
       cond.reason = "Unschedulable" ∧
       (List.lookup "cc.kubernetes.io/provisioned-by" p.annots).isSome = true) := by
    simp [terminalUnschedulable, provisionedByCC, podProvisioner, Bool.and_eq_true,
      and_assoc]
  by_cases hg : (terminalUnschedulable cond && provisionedByCC p) = true
  · refine ⟨?_, fun _ => ?_, fun hn => absurd (hiff.mp hg) hn⟩
    · unfold update
      rw [hg]
      simp
    · unfold update
      rw [hg]
      simp only [if_pos]
      refine ⟨?_, ?_, ?_, ?_, ?_⟩
      · rw [close_status]
      · rw [close_stopSends]
      · exact close_closed_true _
      · rw [close_status]
      · rw [close_simulated]
  · refine ⟨?_, fun hp => absurd (hiff.mpr hp) hg, fun _ => ?_⟩ <;>
      · unfold update
        rw [Bool.not_eq_true] at hg
        rw [hg]
        simp

theorem update_terminal_iff_witness :
    (update exProvPod exUnschedCond exStarted).2.status.stopReason =
      "Unschedulable: Insufficient cpu" :=
  ((update_terminal_iff exProvPod exUnschedCond exStarted).2.1
    (by refine ⟨rfl, rfl, rfl, ?_⟩; decide)).1

/-- C4 (exhibiting the code bug): `Update` assigns `stopped = true` but never
reads it, so a repeated terminal rejection is not a no-op: two identical
unschedulable updates for the pending provenance-marked instance send on the
stop channel twice, violating the at-most-once termination-signal invariant. -/
theorem update_double_send :
    (steps (fun _ => none) exUid (fun _ => none)
        [Event.reject "Unschedulable" "Insufficient cpu",
         Event.reject "Unschedulable" "Insufficient cpu"] exStarted).stopSends = 2 ∧
    (steps (fun _ => none) exUid (fun _ => none)
        [Event.reject "Unschedulable" "Insufficient cpu"] exStarted).stopSends = 1 := by
  constructor <;> decide

/-- C2 (counterexample): in a limit-1 run where the engine accepts the only
instance, the recorded stop reason is
"LimitReached: Maximum number of pods simulated: 1", not the claimed
"LimitReached: Maximum number of 1 simulated". -/
theorem limit_reason_counterexample :
    (steps (fun _ => none) exUid (fun _ => none) [Event.accept "node-a"]
        exN1Started).status.stopReason =
      "LimitReached: Maximum number of pods simulated: 1" ∧
    (steps (fun _ => none) exUid (fun _ => none) [Event.accept "node-a"]
        exN1Started).status.stopReason ≠
      "LimitReached: Maximum number of 1 simulated" := by
  constructor <;> decide

/-- C1: with Limit = N > 0, the placement sequence never exceeds N entries
along any event trace; and in a run where the engine accepts every seeded
instance, after N accept events the sequence has exactly N entries and the run
has stopped: the termination signal was sent exactly once, the channels are
closed, and no further instance was seeded (the seed counter equals N). -/
theorem limit_bound_and_exact (tpl : Pod) (N : Nat) (sched node : String)
    (init : List Pod) (uid : Nat → String) (hN : 0 < N) :
    (∀ (sErr : Pod → Option String) (cErr : Nat → Option String) (es : List Event),
      (steps sErr uid cErr es
          (start uid cErr (newCC tpl N sched init)).2).status.pods.length ≤ N) ∧
    ((steps (fun _ => none) uid (fun _ => none)
        (List.replicate N (Event.accept node))
        (start uid (fun _ => none) (newCC tpl N sched init)).2).status.pods.length = N ∧
     (steps (fun _ => none) uid (fun _ => none)
        (List.replicate N (Event.accept node))
        (start uid (fun _ => none) (newCC tpl N sched init)).2).simulated = N ∧
     (steps (fun _ => none) uid (fun _ => none)
        (List.replicate N (Event.accept node))
        (start uid (fun _ => none) (newCC tpl N sched init)).2).stopSends = 1 ∧
     (steps (fun _ => none) uid (fun _ => none)
        (List.replicate N (Event.accept node))
        (start uid (fun _ => none) (newCC tpl N sched init)).2).pending = false ∧
     (steps (fun _ => none) uid (fun _ => none)
        (List.replicate N (Event.accept node))
        (start uid (fun _ => none) (newCC tpl N sched init)).2).closed = true) := by
  constructor
  · intro sErr cErr es
    have hInv := steps_inv sErr uid cErr es _
      (@start_inv N tpl uid cErr sched init)
    have hcount := hInv.count
    have hsim := hInv.sim_le hN
    have h1 : (steps sErr uid cErr es
        (start uid cErr (newCC tpl N sched init)).2).status.pods.length ≤
        (steps sErr uid cErr es
          (start uid cErr (newCC tpl N sched init)).2).simulated :=
      le_trans (Nat.le_add_right _ _) hcount
    omega
  · have hM0 := start_mid tpl N sched init uid
    have h := acceptRun node uid hN N 0 _ (by omega) (by omega) hM0
    exact ⟨h.1, h.2.1, h.2.2.1, h.2.2.2.1, h.2.2.2.2.2⟩

theorem limit_bound_and_exact_witness :
    (steps (fun _ => none) exUid (fun _ => none)
        (List.replicate 2 (Event.accept "node-a"))
        (start exUid (fun _ => none)
          (newCC exPod 2 "default-scheduler" [])).2).status.pods.length = 2 ∧
    (steps (fun _ => none) exUid (fun _ => none)
        (List.replicate 2 (Event.accept "node-a"))
        (start exUid (fun _ => none)
          (newCC exPod 2 "default-scheduler" [])).2).stopSends = 1 :=
  have h := limit_bound_and_exact exPod 2 "default-scheduler" "node-a" [] exUid
    (by decide)
  ⟨h.2.1, h.2.2.2.1⟩

/-- C2 (amended): when the configured limit N > 0 is reached, the recorded
stop reason is exactly "LimitReached: Maximum number of pods simulated: <n>"
with <n> the decimal limit value. -/
theorem limit_reason_amended (tpl : Pod) (N : Nat) (sched node : String)
    (init : List Pod) (uid : Nat → String) (hN : 0 < N) :
    (steps (fun _ => none) uid (fun _ => none)
        (List.replicate N (Event.accept node))
        (start uid (fun _ => none) (newCC tpl N sched init)).2).status.stopReason =
      "LimitReached: Maximum number of pods simulated: " ++ Nat.repr N := by
  have hM0 := start_mid tpl N sched init uid
  have h := acceptRun node uid hN N 0 _ (by omega) (by omega) hM0
  exact h.2.2.2.2.1

theorem limit_reason_amended_witness :
    (steps (fun _ => none) exUid (fun _ => none)
        (List.replicate 3 (Event.accept "node-a"))
        (start exUid (fun _ => none)
          (newCC exPod 3 "default-scheduler" [])).2).status.stopReason =
      "LimitReached: Maximum number of pods simulated: " ++ Nat.repr 3 :=
  limit_reason_amended exPod 3 "default-scheduler" "node-a" [] exUid (by decide)

/-- C8: every instance generated by `nextPod` is the deep copy of the template
with the serial index appended to the name, the uid taken fresh from the
generator, the node name cleared, the scheduler name set, and the provenance
key mapped to the scheduler name, all other template content unchanged; the
serial counter advances by one per seeding; and along any event trace of a run
the generated instance names are pairwise distinct. -/
theorem nextPod_identity_and_distinct (uid : Nat → String) (tpl : Pod) (N : Nat)
    (sched : String) (init : List Pod) :
    (∀ (c : CC) (cErr : Nat → Option String),
      (nextPod uid cErr c).2.lastSimulatedPod = some (mkNextPod uid c) ∧
      (nextPod uid cErr c).2.simulated = c.simulated + 1 ∧
      (mkNextPod uid c).name = c.simulatedPod.name ++ "-" ++ Nat.repr c.simulated ∧
      (mkNextPod uid c).uid = uid c.simulated ∧
      (mkNextPod uid c).nodeName = "" ∧
      (mkNextPod uid c).schedulerName = c.defaultSchedulerName ∧
      List.lookup podProvisioner (mkNextPod uid c).annots =
        some c.defaultSchedulerName ∧
      (mkNextPod uid c).ns = c.simulatedPod.ns ∧
      (mkNextPod uid c).phase = c.simulatedPod.phase ∧
      (mkNextPod uid c).rest = c.simulatedPod.rest) ∧
    (∀ (sErr : Pod → Option String) (cErr : Nat → Option String) (es : List Event),
      ((steps sErr uid cErr es
          (start uid cErr (newCC tpl N sched init)).2).seeded.map Pod.name).Nodup) := by
  constructor
  · intro c cErr
    refine ⟨?_, ?_, rfl, rfl, rfl, rfl, ?_, rfl, rfl, rfl⟩
    · cases hc : cErr c.simulated with
      | none => rw [nextPod_ok_eq hc]
      | some e => rw [nextPod_err_eq hc]
    · cases hc : cErr c.simulated with
      | none => rw [nextPod_ok_eq hc]
      | some e => rw [nextPod_err_eq hc]
    · show List.lookup podProvisioner
        (setAnn _ podProvisioner c.defaultSchedulerName) = some c.defaultSchedulerName
      simp [setAnn]
  · intro sErr cErr es
    have hInv := steps_inv sErr uid cErr es _
      (@start_inv N tpl uid cErr sched init)
    rw [hInv.seeded_names]
    exact (List.nodup_range _).map (mkName_inj tpl.name)

end CCSim
